import Mathlib

/-!
Shallow embedding of the idempotency control layer of `src/server.js`
(together with the `idempotency_keys` table of `src/sql/db_schema.sql`),
and proofs about the claims of the specification.

The embedding models, faithfully to the source:
  - one row of the `idempotency_keys` table (`IdempotencyRecord`);
  - the per-key projection of the table (`KeyStore`): the UNIQUE constraint
    on `idempotency_key` allows at most one physical row per key, and every
    SQL statement in the middleware touches only the row of the request's
    own key, so the state relevant to one key is `Option IdempotencyRecord`;
  - the three SQL statements of `idempotencyMiddleware` (`checkQuery`,
    `insertQuery`, `updateQuery`), the reaper's DELETE
    (`cleanupExpiredKeys`), and the middleware's control flow, including
    the patching of `res.json` and the `pool.connect` / `client.release`
    accounting;
  - an interleaving semantics for N concurrent callers of the middleware's
    claim protocol (SELECT then INSERT as two atomic steps against the
    shared store).
-/

set_option maxHeartbeats 1000000

namespace Idem

/-- JSON values, as stored in the `jsonb` columns and as passed to
`res.json`.  Numbers are modelled as integers: the only arithmetic the
middleware performs on a JSON value is the JavaScript truthiness test. -/
inductive Json where
  | null
  | bool (b : Bool)
  | num (n : Int)
  | str (s : String)
  | arr (elems : List Json)
  | obj (fields : List (String × Json))
deriving Inhabited

/-- JavaScript truthiness of a decoded JSON value, as tested by the
middleware line `if (cached.response_body)` (server.js:49). -/
def truthy : Json → Bool
  | .null => false
  | .bool b => b
  | .num n => n != 0
  | .str s => s != ""
  | .arr _ => true
  | .obj _ => true

/-- The `processing_status` enum of `db_schema.sql`. -/
inductive ProcStatus where
  | pending
  | processing
  | completed
  | failed
deriving DecidableEq, Inhabited

/-- One row of the `idempotency_keys` table (`db_schema.sql`), restricted to
the columns the middleware reads or writes.  The SERIAL `id` is omitted:
no branch of the code inspects its value.  Times are integers (seconds). -/
structure IdempotencyRecord where
  request_method : String
  request_path : String
  request_body : Json
  processing_status : ProcStatus
  response_status : Option Int
  response_body : Option Json
  created_at : Int
  updated_at : Int
  expires_at : Int
deriving Inhabited

/-- The `idempotency_keys` table projected onto one idempotency key: the
UNIQUE constraint allows at most one physical row per key. -/
abbrev KeyStore := Option IdempotencyRecord

/-- The row shape selected by the middleware's check SELECT
(server.js:29-34). -/
structure CachedRow where
  response_status : Option Int
  response_body : Option Json
  processing_status : ProcStatus
  expires_at : Int

/-- The SELECT of `idempotencyMiddleware` (server.js:29-36): returns the
key's row only when `expires_at > NOW()`.  An expired row is invisible to
this query even though it is still physically present. -/
def checkQuery (st : KeyStore) (now : Int) : Option CachedRow :=
  match st with
  | none => none
  | some r =>
    if now < r.expires_at then
      some ⟨r.response_status, r.response_body, r.processing_status, r.expires_at⟩
    else none

/-- Outcome the middleware decides after looking at the selected row
(server.js:38-52): a `processing` row gives 409, a truthy cached
`response_body` gives a replay, and anything else falls through (`none`)
to the insert. -/
inductive CheckOutcome where
  | conflict
  | replay (s : Option Int) (b : Json)

/-- The branch on the result of `checkQuery` (server.js:38-52). -/
def cachedDecision (row : Option CachedRow) : Option CheckOutcome :=
  match row with
  | none => none
  | some cached =>
    if cached.processing_status = .processing then some .conflict
    else
      match cached.response_body with
      | some b => if truthy b then some (.replay cached.response_status b) else none
      | none => none

/-- The TTL `INTERVAL '24 hours'` of the insert (server.js:64), in seconds. -/
def ttl24h : Int := 24 * 60 * 60

/-- The INSERT of `idempotencyMiddleware` (server.js:55-74):
`ON CONFLICT (idempotency_key) DO NOTHING RETURNING id`.  The Boolean
records whether a row was returned.  The conflict fires on any physical
row holding the key, expired or not: the UNIQUE constraint knows nothing
about `expires_at`. -/
def insertQuery (st : KeyStore) (now : Int) (m p : String) (b : Json) :
    KeyStore × Bool :=
  match st with
  | some r => (some r, false)
  | none =>
    (some { request_method := m, request_path := p, request_body := b,
            processing_status := .processing,
            response_status := none, response_body := none,
            created_at := now, updated_at := now,
            expires_at := now + ttl24h }, true)

/-- The UPDATE run by the patched `res.json` (server.js:87-100): sets both
response columns and `processing_status = completed` in one statement,
keyed only on `idempotency_key` (no expiry filter). -/
def updateQuery (st : KeyStore) (now : Int) (s : Int) (b : Json) : KeyStore :=
  match st with
  | none => none
  | some r =>
    some { r with response_status := some s, response_body := some b,
                  processing_status := .completed, updated_at := now }

/-- `cleanupExpiredKeys` (server.js:279-286): DELETE WHERE
`expires_at < NOW()`, restricted to this key's row. -/
def cleanupExpiredKeys (st : KeyStore) (now : Int) : KeyStore :=
  match st with
  | none => none
  | some r => if r.expires_at < now then none else some r

/-- The parts of the Express request that the middleware reads. -/
structure ReqCtx where
  key : Option String
  method : String
  path : String
  body : Json

/-- JavaScript falsiness of the `idempotency-key` header
(server.js:21, `!idempotencyKey`): absent or empty string. -/
def keyFalsy : Option String → Bool
  | none => true
  | some s => s == ""

/-- Behaviour of the downstream route handler once `next()` runs: respond
with a status and a JSON body through `res.status(s).json(b)`, throw (the
error then reaches the error-handling middleware of server.js:265-271,
which responds through the same, possibly patched, `res.json`), or never
respond at all (crash / hang). -/
inductive HandlerAct where
  | respond (s : Int) (b : Json)
  | raise (msg : String)
  | silent

/-- The body built by the error-handling middleware (server.js:267-270). -/
def errorBody (msg : String) : Json :=
  .obj [("error", .str "Internal server error"), ("message", .str msg)]

/-- The 409 body of server.js:43-45 and 78-80. -/
def conflictBody : Json :=
  .obj [("error", .str "Request is already being processed")]

/-- Outcome of the middleware's decision for one request. -/
inductive GateResult where
  | bypass
  | conflict
  | replay (s : Option Int) (b : Json)
  | proceed

/-- Observable effect of running one request through
`idempotencyMiddleware` followed by the downstream handler:
which branch was taken, the response the client receives (status may be
the raw, possibly NULL, `response_status` column on a replay), the final
per-key store, the number of `pool.connect()` and `client.release()`
calls, and whether the downstream handler ran. -/
structure RunOut where
  gate : GateResult
  response : Option (Option Int × Json)
  store : KeyStore
  acquired : Nat
  released : Nat
  handlerRan : Bool

/-- `idempotencyMiddleware` (server.js:17-116) followed by the route
handler and, when the handler throws, the error-handling middleware
(server.js:265-271).  `cwOk` says whether the completion UPDATE succeeds;
its failure is caught and logged (server.js:101-105) and the original
`res.json` still sends the handler's body.  `acquired` counts
`pool.connect()` (line 25) and `released` counts `client.release()`
(lines 104 and 112): the early 409 / replay returns at lines 43, 50 and
78 have no release. -/
def idempotencyMiddleware (ctx : ReqCtx) (st : KeyStore) (now : Int)
    (act : HandlerAct) (cwOk : Bool) : RunOut :=
  if keyFalsy ctx.key || ctx.method == "GET" then
    { gate := .bypass, store := st, acquired := 0, released := 0,
      handlerRan := true,
      response :=
        match act with
        | .respond s b => some (some s, b)
        | .raise msg => some (some 500, errorBody msg)
        | .silent => none }
  else
    match cachedDecision (checkQuery st now) with
    | some .conflict =>
      { gate := .conflict, response := some (some 409, conflictBody),
        store := st, acquired := 1, released := 0, handlerRan := false }
    | some (.replay s b) =>
      { gate := .replay s b, response := some (s, b),
        store := st, acquired := 1, released := 0, handlerRan := false }
    | none =>
      match insertQuery st now ctx.method ctx.path ctx.body with
      | (st', false) =>
        { gate := .conflict, response := some (some 409, conflictBody),
          store := st', acquired := 1, released := 0, handlerRan := false }
      | (st', true) =>
        match act with
        | .respond s b =>
          { gate := .proceed, response := some (some s, b),
            store := if cwOk then updateQuery st' now s b else st',
            acquired := 1, released := 1, handlerRan := true }
        | .raise msg =>
          { gate := .proceed, response := some (some 500, errorBody msg),
            store := if cwOk then updateQuery st' now 500 (errorBody msg) else st',
            acquired := 1, released := 1, handlerRan := true }
        | .silent =>
          { gate := .proceed, response := none, store := st',
            acquired := 1, released := 0, handlerRan := true }

/-- The three mutations the source performs on the `idempotency_keys`
table for one key: the claim INSERT, the completion UPDATE, and the
reaper's DELETE. -/
inductive StoreOp where
  | claim (now : Int) (m p : String) (b : Json)
  | complete (now : Int) (s : Int) (b : Json)
  | sweep (now : Int)

/-- Apply one store operation to the per-key store. -/
def applyOp (st : KeyStore) : StoreOp → KeyStore
  | .claim now m p b => (insertQuery st now m p b).1
  | .complete now s b => updateQuery st now s b
  | .sweep now => cleanupExpiredKeys st now

/-- Response-presence invariant on one row: `response_status` and
`response_body` are both present or both absent, and their presence
implies `processing_status = completed`. -/
def recInv (r : IdempotencyRecord) : Prop :=
  (r.response_status.isSome ↔ r.response_body.isSome)
  ∧ (r.response_body.isSome → r.processing_status = .completed)

/-- Per-caller progress through the middleware's claim protocol: about to
run the check SELECT, about to run the INSERT, or finished with an
outcome. -/
inductive CallerPhase where
  | ready
  | toInsert
  | finished (g : GateResult)

/-- One caller executes its next atomic SQL statement against the shared
store.  The SELECT and the INSERT are each atomic in PostgreSQL; the
branch between them is caller-local computation. -/
def stepOne (t : Int) (fp : String × String × Json) (st : KeyStore) :
    CallerPhase → KeyStore × CallerPhase
  | .ready =>
    match cachedDecision (checkQuery st t) with
    | some .conflict => (st, .finished .conflict)
    | some (.replay s b) => (st, .finished (.replay s b))
    | none => (st, .toInsert)
  | .toInsert =>
    let res := insertQuery st t fp.1 fp.2.1 fp.2.2
    (res.1, .finished (if res.2 then .proceed else .conflict))
  | .finished g => (st, .finished g)

/-- Schedule caller `i` (0-based) for one atomic step; out-of-range
indices change nothing.  `fps` gives each caller's request fingerprint. -/
def stepAt (t : Int) (fps : Nat → String × String × Json) (st : KeyStore) :
    List CallerPhase → Nat → KeyStore × List CallerPhase
  | [], _ => (st, [])
  | p :: ps, 0 =>
    let res := stepOne t (fps 0) st p
    (res.1, res.2 :: ps)
  | p :: ps, n + 1 =>
    let res := stepAt t (fun j => fps (j + 1)) st ps n
    (res.1, p :: res.2)

/-- Run an interleaving (a list of caller indices) from a system state. -/
def runSched (t : Int) (fps : Nat → String × String × Json)
    (sched : List Nat) (s : KeyStore × List CallerPhase) :
    KeyStore × List CallerPhase :=
  sched.foldl (fun s i => stepAt t fps s.1 s.2 i) s

/-- The caller observed `New`: its insert returned a row. -/
def isNew : CallerPhase → Bool
  | .finished .proceed => true
  | _ => false

/-- The caller observed `Conflict` (409). -/
def isConflict : CallerPhase → Bool
  | .finished .conflict => true
  | _ => false

/-- The caller has finished the claim protocol. -/
def isDone : CallerPhase → Bool
  | .finished _ => true
  | _ => false

/-- Modelled from the spec's words ("a read-only method bypasses the Gate
entirely"): the read-only (safe) HTTP methods.  To be compared with the
source's test, which is `req.method === 'GET'` alone (server.js:21). -/
def spec_readOnlyMethod (m : String) : Bool :=
  m == "GET" || m == "HEAD" || m == "OPTIONS"

/-- The caller has not finished yet: it is about to run its SELECT or its
INSERT. -/
def pendingP (p : CallerPhase) : Prop := p = .ready ∨ p = .toInsert

/-- Invariant of the concurrent claim protocol run from an absent record:
either the store is still empty and every caller is pending, or the store
holds a `processing` row and exactly one caller has observed `New`, while
every other caller is pending or has observed `Conflict`. -/
def SysInv (s : KeyStore × List CallerPhase) : Prop :=
  (s.1 = none ∧ ∀ p ∈ s.2, pendingP p)
  ∨ ((∃ r, s.1 = some r ∧ r.processing_status = .processing)
      ∧ List.countP isNew s.2 = 1
      ∧ ∀ p ∈ s.2, pendingP p ∨ isConflict p = true ∨ isNew p = true)

lemma stepAt_eq (t : Int) (fps : Nat → String × String × Json) (st : KeyStore)
    (ps : List CallerPhase) (i : Nat) :
    stepAt t fps st ps i =
      if h : i < ps.length then
        ((stepOne t (fps i) st ps[i]).1, ps.set i (stepOne t (fps i) st ps[i]).2)
      else (st, ps) := by
  induction ps generalizing i fps st with
  | nil => simp [stepAt]
  | cons p ps ih =>
    cases i with
    | zero => simp [stepAt]
    | succ n =>
      simp only [stepAt, ih]
      by_cases h : n < ps.length
      · simp [h, Nat.succ_lt_succ_iff, List.set]
      · simp [h, Nat.succ_lt_succ_iff]

lemma countP_set_balance (f : CallerPhase → Bool) (l : List CallerPhase)
    (i : Nat) (a : CallerPhase) (h : i < l.length) :
    List.countP f (l.set i a) + (if f l[i] then 1 else 0)
      = List.countP f l + (if f a then 1 else 0) := by
  induction l generalizing i with
  | nil => simp at h
  | cons x xs ih =>
    cases i with
    | zero => simp [List.countP_cons]; omega
    | succ n =>
      have hn : n < xs.length := by simpa using h
      have := ih n hn
      simp only [List.set, List.countP_cons, List.getElem_cons_succ]
      omega

lemma stepAt_length (t : Int) (fps : Nat → String × String × Json)
    (st : KeyStore) (ps : List CallerPhase) (i : Nat) :
    (stepAt t fps st ps i).2.length = ps.length := by
  rw [stepAt_eq]
  split <;> simp

lemma pendingP_isNew_false {p : CallerPhase} (h : pendingP p) : isNew p = false := by
  rcases h with h | h <;> subst h <;> rfl

lemma isConflict_isNew_false {p : CallerPhase} (h : isConflict p = true) :
    isNew p = false := by
  cases p with
  | finished g => cases g <;> simp_all [isConflict, isNew]
  | ready => simp [isNew]
  | toInsert => simp [isNew]

lemma countP_set_stay (f : CallerPhase → Bool) (l : List CallerPhase) (i : Nat)
    (a : CallerPhase) (h : i < l.length) (heq : f a = f l[i]) :
    List.countP f (l.set i a) = List.countP f l := by
  have hb := countP_set_balance f l i a h
  rw [heq] at hb
  exact Nat.add_right_cancel hb

lemma countP_set_up (l : List CallerPhase) (i : Nat) (a : CallerPhase)
    (h : i < l.length) (h1 : isNew l[i] = false) (h2 : isNew a = true) :
    List.countP isNew (l.set i a) = List.countP isNew l + 1 := by
  have hb := countP_set_balance isNew l i a h
  rw [h1, h2] at hb
  simpa using hb

lemma sysInv_stepAt (t : Int) (fps : Nat → String × String × Json)
    (st : KeyStore) (ps : List CallerPhase) (i : Nat)
    (h : SysInv (st, ps)) : SysInv (stepAt t fps st ps i) := by
  rw [stepAt_eq]
  split
  case isFalse => exact h
  case isTrue hlt =>
    have hmem : ps[i] ∈ ps := List.getElem_mem hlt
    rcases h with ⟨hst, hpend⟩ | ⟨⟨r, hr, hproc⟩, hcount, hphase⟩
    · -- the store is still empty and every caller is pending
      subst hst
      have hzero : List.countP isNew ps = 0 :=
        List.countP_eq_zero.mpr fun q hq => by
          simp [pendingP_isNew_false (hpend q hq)]
      rcases hpend ps[i] hmem with hp | hp
      · -- SELECT over the empty store: fall through to the insert
        have hso : stepOne t (fps i) none ps[i] = (none, .toInsert) := by
          rw [hp]; rfl
        rw [hso]
        left
        refine ⟨rfl, fun q hq => ?_⟩
        rcases List.mem_or_eq_of_mem_set hq with h1 | h1
        · exact hpend q h1
        · exact h1 ▸ Or.inr rfl
      · -- INSERT over the empty store: the row is created, this caller is New
        have hso : stepOne t (fps i) none ps[i]
            = ((insertQuery none t (fps i).1 (fps i).2.1 (fps i).2.2).1,
               .finished .proceed) := by
          rw [hp]; rfl
        rw [hso]
        right
        refine ⟨⟨_, rfl, rfl⟩, ?_, fun q hq => ?_⟩
        · rw [countP_set_up ps i (.finished .proceed) hlt (by rw [hp]; rfl) rfl,
            hzero]
        · rcases List.mem_or_eq_of_mem_set hq with h1 | h1
          · exact Or.inl (hpend q h1)
          · exact h1 ▸ Or.inr (Or.inr rfl)
    · -- the store already holds a processing row
      subst hr
      have hcount1 : List.countP isNew ps = 1 := hcount
      have hkeep : ∀ p' : CallerPhase, isNew p' = isNew ps[i] →
          stepOne t (fps i) (some r) ps[i] = (some r, p') →
          pendingP p' ∨ isConflict p' = true ∨ isNew p' = true →
          SysInv ((stepOne t (fps i) (some r) ps[i]).1,
                  ps.set i (stepOne t (fps i) (some r) ps[i]).2) := by
        intro p' hnew hso hok
        rw [hso]
        right
        refine ⟨⟨r, rfl, hproc⟩, ?_, fun q hq => ?_⟩
        · rw [countP_set_stay isNew ps i p' hlt hnew]
          exact hcount1
        · rcases List.mem_or_eq_of_mem_set hq with h1 | h1
          · exact hphase q h1
          · exact h1 ▸ hok
      cases hp : ps[i] with
      | ready =>
        rw [hp] at hkeep
        by_cases ht : t < r.expires_at
        · -- SELECT sees the processing row: 409
          refine hkeep (.finished .conflict) rfl ?_ (Or.inr (Or.inl rfl))
          simp [stepOne, checkQuery, cachedDecision, ht, hproc]
        · -- the row is expired: the SELECT filter hides it, fall through
          refine hkeep .toInsert rfl ?_ (Or.inl (Or.inr rfl))
          simp [stepOne, checkQuery, cachedDecision, ht]
      | toInsert =>
        -- INSERT hits the UNIQUE constraint: no row returned, 409
        rw [hp] at hkeep
        exact hkeep (.finished .conflict) rfl rfl (Or.inr (Or.inl rfl))
      | finished g =>
        rw [hp] at hkeep
        refine hkeep (.finished g) rfl rfl ?_
        have hg := hphase ps[i] hmem
        rw [hp] at hg
        exact hg

lemma sysInv_runSched (t : Int) (fps : Nat → String × String × Json)
    (sched : List Nat) (s : KeyStore × List CallerPhase) (h : SysInv s) :
    SysInv (runSched t fps sched s) := by
  induction sched generalizing s with
  | nil => exact h
  | cons i sched ih =>
    exact ih (stepAt t fps s.1 s.2 i) (sysInv_stepAt t fps s.1 s.2 i h)

lemma length_runSched (t : Int) (fps : Nat → String × String × Json)
    (sched : List Nat) (s : KeyStore × List CallerPhase) :
    (runSched t fps sched s).2.length = s.2.length := by
  induction sched generalizing s with
  | nil => rfl
  | cons i sched ih =>
    have := ih (stepAt t fps s.1 s.2 i)
    simpa [stepAt_length] using this

lemma countP_conflict_add_new (l : List CallerPhase)
    (h : ∀ p ∈ l, isConflict p = true ∨ isNew p = true) :
    List.countP isConflict l + List.countP isNew l = l.length := by
  induction l with
  | nil => simp
  | cons p ps ih =>
    have hp := h p (List.mem_cons_self p ps)
    have hps := ih fun q hq => h q (List.mem_cons_of_mem p hq)
    have hx : isConflict p = true → isNew p = false := isConflict_isNew_false
    simp only [List.countP_cons, List.length_cons]
    rcases hp with hc | hn
    · have := hx hc
      simp [hc, this]
      omega
    · have hcf : isConflict p = false := by
        cases p with
        | finished g => cases g <;> simp_all [isConflict, isNew]
        | ready => simp [isConflict]
        | toInsert => simp [isConflict]
      simp [hn, hcf]
      omega

lemma guard_false {ctx : ReqCtx} (hk : keyFalsy ctx.key = false)
    (hm : ctx.method ≠ "GET") :
    (keyFalsy ctx.key || ctx.method == "GET") = false := by
  rw [hk, Bool.false_or]
  exact beq_eq_false_iff_ne.mpr hm

/-- C1, amended: mutual exclusion of the claim step holds from a key with
no physical row in the store (in particular, once any expired row has been
reaped): whatever the interleaving of the N callers' SELECT and INSERT
steps, once all callers have finished, exactly one observed New (its
insert returned a row) and the other N−1 observed Conflict. -/
theorem C1_mutual_exclusion_amended (t : Int) (fps : Nat → String × String × Json)
    (n : Nat) (sched : List Nat) (hn : 0 < n)
    (hdone : ((runSched t fps sched (none, List.replicate n .ready)).2.all isDone)
      = true) :
    List.countP isNew (runSched t fps sched (none, List.replicate n .ready)).2 = 1
    ∧ List.countP isConflict
        (runSched t fps sched (none, List.replicate n .ready)).2 = n - 1 := by
  set final := runSched t fps sched (none, List.replicate n CallerPhase.ready)
    with hfin
  have hinv : SysInv final :=
    sysInv_runSched t fps sched _
      (Or.inl ⟨rfl, fun p hp => Or.inl (List.eq_of_mem_replicate hp)⟩)
  have hlen : final.2.length = n := by
    rw [hfin, length_runSched]
    simp
  have hall : ∀ p ∈ final.2, isDone p = true := List.all_eq_true.mp hdone
  rcases hinv with ⟨_, hpend⟩ | ⟨_, hcount, hphase⟩
  · -- impossible: with the store still empty, some caller would be pending
    obtain ⟨p, hp⟩ : ∃ p, p ∈ final.2 :=
      List.exists_mem_of_length_pos (hlen ▸ hn)
    have hd := hall p hp
    rcases hpend p hp with h | h <;> subst h <;> simp [isDone] at hd
  · refine ⟨hcount, ?_⟩
    have hcn : ∀ p ∈ final.2, isConflict p = true ∨ isNew p = true := by
      intro p hp
      rcases hphase p hp with h | h | h
      · exfalso
        have hd := hall p hp
        rcases h with h | h <;> subst h <;> simp [isDone] at hd
      · exact Or.inl h
      · exact Or.inr h
    have hsum := countP_conflict_add_new final.2 hcn
    omega

/-- C1, counterexample to the claim as stated: the key has no unexpired
record (the check SELECT sees nothing), yet a lone caller running the claim
protocol observes Conflict, not New, because the physically present expired
row still fires the UNIQUE constraint of the insert. -/
theorem C1_counterexample :
    checkQuery (insertQuery none 0 "POST" "/api/payment" (Json.obj [])).1 100000
      = none
    ∧ ((runSched 100000 (fun _ => ("POST", "/api/payment", Json.obj [])) [0, 0]
        ((insertQuery none 0 "POST" "/api/payment" (Json.obj [])).1,
         [CallerPhase.ready])).2.all isDone) = true
    ∧ List.countP isNew
        ((runSched 100000 (fun _ => ("POST", "/api/payment", Json.obj [])) [0, 0]
          ((insertQuery none 0 "POST" "/api/payment" (Json.obj [])).1,
           [CallerPhase.ready])).2) = 0 :=
  ⟨rfl, rfl, rfl⟩

/-- Witness for C1: three concrete callers, a concrete interleaving. -/
theorem C1_witness :
    0 < 3
    ∧ ((runSched 0 (fun _ => ("POST", "/api/payment", Json.null)) [0, 0, 1, 1, 2, 2]
        (none, List.replicate 3 .ready)).2.all isDone) = true
    ∧ (List.countP isNew
          (runSched 0 (fun _ => ("POST", "/api/payment", Json.null)) [0, 0, 1, 1, 2, 2]
            (none, List.replicate 3 .ready)).2 = 1
        ∧ List.countP isConflict
            (runSched 0 (fun _ => ("POST", "/api/payment", Json.null)) [0, 0, 1, 1, 2, 2]
              (none, List.replicate 3 .ready)).2 = 3 - 1) :=
  ⟨by decide, rfl,
    C1_mutual_exclusion_amended 0 (fun _ => ("POST", "/api/payment", Json.null))
      3 [0, 0, 1, 1, 2, 2] (by decide) rfl⟩

/-- C2, amended: replay fidelity holds whenever the stored body decodes to
a JavaScript-truthy value.  After the completion write has stored (S, B)
with B truthy, every guarded request for the key before `expires_at` gets
exactly status S and body B from the cache, without running the handler,
regardless of the retry's method, path or body (no fingerprint is
compared). -/
theorem C2_replay_fidelity_amended (ctx : ReqCtx) (r : IdempotencyRecord)
    (tc now S : Int) (B : Json) (act : HandlerAct) (cwOk : Bool)
    (hk : keyFalsy ctx.key = false) (hm : ctx.method ≠ "GET")
    (hT : truthy B = true) (hexp : now < r.expires_at) :
    (idempotencyMiddleware ctx (updateQuery (some r) tc S B) now act cwOk).gate
      = .replay (some S) B
    ∧ (idempotencyMiddleware ctx (updateQuery (some r) tc S B) now act cwOk).response
        = some (some S, B)
    ∧ (idempotencyMiddleware ctx (updateQuery (some r) tc S B) now act cwOk).handlerRan
        = false
    ∧ (idempotencyMiddleware ctx (updateQuery (some r) tc S B) now act cwOk).store
        = updateQuery (some r) tc S B := by
  have hg := guard_false hk hm
  simp [idempotencyMiddleware, hg, updateQuery, checkQuery, cachedDecision, hexp, hT]

/-- C2, counterexample to the claim as stated: the completion write stores
(200, false); the retry before expiry is answered 409, not with the cached
(200, false), because `if (cached.response_body)` is falsy on the decoded
body and the middleware falls through to the conflicting insert. -/
theorem C2_counterexample :
    (idempotencyMiddleware ⟨some "K1", "POST", "/api/payment", Json.obj []⟩
        (updateQuery (insertQuery none 0 "POST" "/api/payment" (Json.obj [])).1
          1 200 (Json.bool false))
        2 (.respond 201 Json.null) true).gate = .conflict
    ∧ (idempotencyMiddleware ⟨some "K1", "POST", "/api/payment", Json.obj []⟩
        (updateQuery (insertQuery none 0 "POST" "/api/payment" (Json.obj [])).1
          1 200 (Json.bool false))
        2 (.respond 201 Json.null) true).response = some (some 409, conflictBody)
    ∧ (idempotencyMiddleware ⟨some "K1", "POST", "/api/payment", Json.obj []⟩
        (updateQuery (insertQuery none 0 "POST" "/api/payment" (Json.obj [])).1
          1 200 (Json.bool false))
        2 (.respond 201 Json.null) true).handlerRan = false :=
  ⟨rfl, rfl, rfl⟩

/-- Witness for C2 at a concrete truthy cached body. -/
theorem C2_witness :
    keyFalsy (some "K1") = false ∧ ("POST" : String) ≠ "GET"
    ∧ truthy (Json.obj [("id", Json.num 1)]) = true ∧ ((2 : Int) < 86400)
    ∧ (idempotencyMiddleware ⟨some "K1", "PATCH", "/other", Json.str "different"⟩
        (updateQuery (insertQuery none 0 "POST" "/api/payment" Json.null).1
          1 201 (Json.obj [("id", Json.num 1)]))
        2 .silent false).gate = .replay (some 201) (Json.obj [("id", Json.num 1)]) :=
  ⟨rfl, by decide, rfl, by decide,
    (C2_replay_fidelity_amended ⟨some "K1", "PATCH", "/other", Json.str "different"⟩
      { request_method := "POST", request_path := "/api/payment",
        request_body := Json.null, processing_status := .processing,
        response_status := none, response_body := none,
        created_at := 0, updated_at := 0, expires_at := 86400 }
      1 2 201 (Json.obj [("id", Json.num 1)]) .silent false
      rfl (by decide) rfl (by decide)).1⟩

/-- C3, amended: an expired record is invisible to the replay/conflict
lookup, but the claim insert still collides with the physically present
expired row, so the guarded request is answered 409 (and the handler does
not run) until the Reaper deletes the row; `cleanupExpiredKeys` run later
than `expires_at` removes the row, after which a guarded request produces
New and the handler runs. -/
theorem C3_expiry_visibility_amended (ctx : ReqCtx) (r : IdempotencyRecord)
    (now : Int) (act : HandlerAct) (cwOk : Bool)
    (hk : keyFalsy ctx.key = false) (hm : ctx.method ≠ "GET")
    (hexp : r.expires_at < now) :
    checkQuery (some r) now = none
    ∧ (idempotencyMiddleware ctx (some r) now act cwOk).gate = .conflict
    ∧ (idempotencyMiddleware ctx (some r) now act cwOk).handlerRan = false
    ∧ cleanupExpiredKeys (some r) now = none
    ∧ (idempotencyMiddleware ctx (cleanupExpiredKeys (some r) now) now act cwOk).gate
        = .proceed
    ∧ (idempotencyMiddleware ctx (cleanupExpiredKeys (some r) now) now act cwOk).handlerRan
        = true := by
  have hg := guard_false hk hm
  have hnl : ¬ now < r.expires_at := by omega
  have hclean : cleanupExpiredKeys (some r) now = none := by
    simp [cleanupExpiredKeys, hexp]
  refine ⟨by simp [checkQuery, hnl], ?_, ?_, hclean, ?_, ?_⟩
  · simp [idempotencyMiddleware, hg, checkQuery, cachedDecision, hnl, insertQuery]
  · simp [idempotencyMiddleware, hg, checkQuery, cachedDecision, hnl, insertQuery]
  · rw [hclean]
    cases act <;>
      simp [idempotencyMiddleware, hg, checkQuery, cachedDecision, insertQuery]
  · rw [hclean]
    cases act <;>
      simp [idempotencyMiddleware, hg, checkQuery, cachedDecision, insertQuery]

/-- C3, counterexample to the claim as stated: a completed record is past
its `expires_at` and not yet reaped; the lookup treats it as absent, yet
the guarded request gets Conflict, not New, and the handler does not run. -/
theorem C3_counterexample :
    checkQuery
      (updateQuery (insertQuery none 0 "POST" "/api/payment" Json.null).1
        1 201 (Json.obj [("id", Json.num 1)])) 100000 = none
    ∧ (idempotencyMiddleware ⟨some "K3", "POST", "/api/payment", Json.null⟩
        (updateQuery (insertQuery none 0 "POST" "/api/payment" Json.null).1
          1 201 (Json.obj [("id", Json.num 1)]))
        100000 (.respond 201 Json.null) true).gate = .conflict
    ∧ (idempotencyMiddleware ⟨some "K3", "POST", "/api/payment", Json.null⟩
        (updateQuery (insertQuery none 0 "POST" "/api/payment" Json.null).1
          1 201 (Json.obj [("id", Json.num 1)]))
        100000 (.respond 201 Json.null) true).handlerRan = false :=
  ⟨rfl, rfl, rfl⟩

/-- Witness for C3 at a concrete expired record. -/
theorem C3_witness :
    keyFalsy (some "K3") = false ∧ ("POST" : String) ≠ "GET" ∧ ((86400 : Int) < 90000)
    ∧ (idempotencyMiddleware ⟨some "K3", "POST", "/api/payment", Json.null⟩
        (cleanupExpiredKeys
          (some { request_method := "POST", request_path := "/api/payment",
                  request_body := Json.null, processing_status := .completed,
                  response_status := some 201,
                  response_body := some (Json.obj [("id", Json.num 1)]),
                  created_at := 0, updated_at := 1, expires_at := 86400 }) 90000)
        90000 (.respond 201 Json.null) true).gate = .proceed :=
  ⟨rfl, by decide, by decide,
    (C3_expiry_visibility_amended ⟨some "K3", "POST", "/api/payment", Json.null⟩
      { request_method := "POST", request_path := "/api/payment",
        request_body := Json.null, processing_status := .completed,
        response_status := some 201,
        response_body := some (Json.obj [("id", Json.num 1)]),
        created_at := 0, updated_at := 1, expires_at := 86400 }
      90000 (.respond 201 Json.null) true rfl (by decide) (by decide)).2.2.2.2.1⟩

/-- C4: code-bug evidence — a guarded request answered 409 from the check
branch acquires a pool connection and never releases it (release count 0),
contradicting the claimed release-on-every-exit-path discipline.  The
replay and insert-conflict returns (server.js:50, 78) leak in the same
way; only the patched-json path and the catch block release. -/
theorem C4_connection_leak :
    (idempotencyMiddleware ⟨some "K", "POST", "/api/payment", Json.null⟩
        (insertQuery none 0 "POST" "/api/payment" Json.null).1 5
        (.respond 201 Json.null) true).gate = .conflict
    ∧ (idempotencyMiddleware ⟨some "K", "POST", "/api/payment", Json.null⟩
        (insertQuery none 0 "POST" "/api/payment" Json.null).1 5
        (.respond 201 Json.null) true).response = some (some 409, conflictBody)
    ∧ (idempotencyMiddleware ⟨some "K", "POST", "/api/payment", Json.null⟩
        (insertQuery none 0 "POST" "/api/payment" Json.null).1 5
        (.respond 201 Json.null) true).acquired = 1
    ∧ (idempotencyMiddleware ⟨some "K", "POST", "/api/payment", Json.null⟩
        (insertQuery none 0 "POST" "/api/payment" Json.null).1 5
        (.respond 201 Json.null) true).released = 0 :=
  ⟨rfl, rfl, rfl, rfl⟩

/-- C5, amended: when the downstream handler raises and the error reaches
the error-handling middleware, the latter's `res.status(500).json(...)`
goes through the patched `res.json`, so the record transitions to
`completed` with the 500 error body cached; retries before `expires_at`
receive that cached 500 replay, not 409, and do not re-execute the
handler.  The record stays `processing` (and retries get 409) only when no
JSON response is ever emitted for the claimed request. -/
theorem C5_handler_failure_amended (ctx ctx2 : ReqCtx) (now now2 : Int)
    (msg : String) (act2 : HandlerAct) (cw2 : Bool)
    (hk : keyFalsy ctx.key = false) (hm : ctx.method ≠ "GET")
    (hk2 : keyFalsy ctx2.key = false) (hm2 : ctx2.method ≠ "GET")
    (hexp : now2 < now + ttl24h) :
    ((idempotencyMiddleware ctx none now (.raise msg) true).store.map
        (fun r => (r.processing_status, r.response_status, r.response_body)))
      = some (.completed, some 500, some (errorBody msg))
    ∧ (idempotencyMiddleware ctx2
        (idempotencyMiddleware ctx none now (.raise msg) true).store
        now2 act2 cw2).gate = .replay (some 500) (errorBody msg)
    ∧ (idempotencyMiddleware ctx2
        (idempotencyMiddleware ctx none now (.raise msg) true).store
        now2 act2 cw2).handlerRan = false
    ∧ ((idempotencyMiddleware ctx none now .silent true).store.map
        (fun r => r.processing_status)) = some .processing
    ∧ (idempotencyMiddleware ctx2
        (idempotencyMiddleware ctx none now .silent true).store
        now2 act2 cw2).gate = .conflict
    ∧ (idempotencyMiddleware ctx2
        (idempotencyMiddleware ctx none now .silent true).store
        now2 act2 cw2).handlerRan = false := by
  have hg := guard_false hk hm
  have hg2 := guard_false hk2 hm2
  have hstore : (idempotencyMiddleware ctx none now (.raise msg) true).store
      = some { request_method := ctx.method, request_path := ctx.path,
               request_body := ctx.body, processing_status := .completed,
               response_status := some 500,
               response_body := some (errorBody msg),
               created_at := now, updated_at := now,
               expires_at := now + ttl24h } := by
    simp [idempotencyMiddleware, hg, checkQuery, cachedDecision, insertQuery,
      updateQuery]
  have hstoreS : (idempotencyMiddleware ctx none now .silent true).store
      = some { request_method := ctx.method, request_path := ctx.path,
               request_body := ctx.body, processing_status := .processing,
               response_status := none, response_body := none,
               created_at := now, updated_at := now,
               expires_at := now + ttl24h } := by
    simp [idempotencyMiddleware, hg, checkQuery, cachedDecision, insertQuery]
  rw [hstore, hstoreS]
  refine ⟨rfl, ?_, ?_, rfl, ?_, ?_⟩ <;>
    simp [idempotencyMiddleware, hg2, checkQuery, cachedDecision, hexp, truthy,
      errorBody]

/-- C5, counterexample to the claim as stated: after the handler throws for
a freshly claimed key, the record is `completed` (not `processing`) with
the 500 response cached, and a retry before expiry gets that replay, not
409. -/
theorem C5_counterexample :
    ((idempotencyMiddleware ⟨some "K4", "POST", "/api/payment", Json.null⟩ none 0
        (.raise "boom") true).store.map (fun r => r.processing_status))
      = some .completed
    ∧ (idempotencyMiddleware ⟨some "K4", "POST", "/api/payment", Json.null⟩
        (idempotencyMiddleware ⟨some "K4", "POST", "/api/payment", Json.null⟩ none 0
          (.raise "boom") true).store
        100 (.respond 201 Json.null) true).gate
      = .replay (some 500) (errorBody "boom") :=
  ⟨rfl, rfl⟩

/-- Witness for C5 at a concrete key, failure message and retry time. -/
theorem C5_witness :
    keyFalsy (some "K4") = false ∧ ("POST" : String) ≠ "GET"
    ∧ ((100 : Int) < 0 + ttl24h)
    ∧ (idempotencyMiddleware ⟨some "K4", "POST", "/api/payment", Json.null⟩
        (idempotencyMiddleware ⟨some "K4", "POST", "/api/payment", Json.null⟩ none 0
          (.silent) true).store
        100 (.respond 201 Json.null) true).gate = .conflict :=
  ⟨rfl, by decide, by decide,
    (C5_handler_failure_amended
      ⟨some "K4", "POST", "/api/payment", Json.null⟩
      ⟨some "K4", "POST", "/api/payment", Json.null⟩
      0 100 "boom" (.respond 201 Json.null) true
      rfl (by decide) rfl (by decide) (by decide)).2.2.2.2.1⟩

/-- C6: if the completion UPDATE fails, the failure is swallowed and the
client still receives the handler's genuine status code and body; the
connection is still released exactly once (by the finally block), and the
record is left as the claim inserted it (still `processing`). -/
theorem C6_completion_write_failure (ctx : ReqCtx) (now s : Int) (b : Json)
    (hk : keyFalsy ctx.key = false) (hm : ctx.method ≠ "GET") :
    (idempotencyMiddleware ctx none now (.respond s b) false).gate = .proceed
    ∧ (idempotencyMiddleware ctx none now (.respond s b) false).response
        = some (some s, b)
    ∧ (idempotencyMiddleware ctx none now (.respond s b) false).handlerRan = true
    ∧ (idempotencyMiddleware ctx none now (.respond s b) false).released = 1
    ∧ (idempotencyMiddleware ctx none now (.respond s b) false).store
        = (insertQuery none now ctx.method ctx.path ctx.body).1 := by
  have hg := guard_false hk hm
  simp [idempotencyMiddleware, hg, checkQuery, cachedDecision, insertQuery]

/-- Witness for C6 at a concrete request and handler outcome. -/
theorem C6_witness :
    keyFalsy (some "K6") = false ∧ ("POST" : String) ≠ "GET"
    ∧ (idempotencyMiddleware ⟨some "K6", "POST", "/api/payment", Json.null⟩ none 0
        (.respond 201 (Json.obj [("ok", Json.bool true)])) false).response
      = some (some 201, Json.obj [("ok", Json.bool true)]) :=
  ⟨rfl, by decide,
    (C6_completion_write_failure ⟨some "K6", "POST", "/api/payment", Json.null⟩
      0 201 (Json.obj [("ok", Json.bool true)]) rfl (by decide)).2.1⟩

/-- C7, amended: a request bypasses the idempotency layer exactly when its
`idempotency-key` header is falsy (absent or empty) or its method is GET;
on a bypass the handler runs, the store is untouched and no connection is
taken.  Read-only methods other than GET (HEAD, OPTIONS) do not bypass. -/
theorem C7_bypass_amended (ctx : ReqCtx) (st : KeyStore) (now : Int)
    (act : HandlerAct) (cwOk : Bool) :
    ((keyFalsy ctx.key = true ∨ ctx.method = "GET")
        ↔ (idempotencyMiddleware ctx st now act cwOk).gate = .bypass)
    ∧ ((idempotencyMiddleware ctx st now act cwOk).gate = .bypass →
        (idempotencyMiddleware ctx st now act cwOk).store = st
        ∧ (idempotencyMiddleware ctx st now act cwOk).acquired = 0
        ∧ (idempotencyMiddleware ctx st now act cwOk).handlerRan = true) := by
  by_cases hb : (keyFalsy ctx.key || ctx.method == "GET") = true
  · have hcond : keyFalsy ctx.key = true ∨ ctx.method = "GET" := by
      rcases Bool.or_eq_true_iff.mp hb with h | h
      · exact Or.inl h
      · exact Or.inr (eq_of_beq h)
    refine ⟨⟨fun _ => ?_, fun _ => hcond⟩, fun _ => ?_⟩
    · simp [idempotencyMiddleware, hb]
    · simp [idempotencyMiddleware, hb]
  · have hb' : (keyFalsy ctx.key || ctx.method == "GET") = false := by
      simpa using hb
    have hnocond : ¬(keyFalsy ctx.key = true ∨ ctx.method = "GET") := by
      rintro (h | h)
      · rw [h] at hb'
        simp at hb'
      · rw [h] at hb'
        simp at hb'
    have hnb : (idempotencyMiddleware ctx st now act cwOk).gate ≠ .bypass := by
      simp only [idempotencyMiddleware, hb', Bool.false_eq_true, if_false]
      split
      · simp
      · simp
      · split
        · simp
        · split <;> simp
    exact ⟨⟨fun h => absurd h hnocond, fun h => absurd h hnb⟩,
      fun h => absurd h hnb⟩

/-- C7, counterexample to the claim as stated: a HEAD request (a read-only
method) carrying an idempotency key does not bypass the layer — the
middleware connects, consults the store and inserts a claim row. -/
theorem C7_counterexample :
    spec_readOnlyMethod "HEAD" = true
    ∧ (idempotencyMiddleware ⟨some "K", "HEAD", "/api/payment", Json.null⟩ none 0
        (.respond 200 Json.null) true).gate = .proceed
    ∧ (idempotencyMiddleware ⟨some "K", "HEAD", "/api/payment", Json.null⟩ none 0
        (.respond 200 Json.null) true).acquired = 1
    ∧ ((idempotencyMiddleware ⟨some "K", "HEAD", "/api/payment", Json.null⟩ none 0
        (.respond 200 Json.null) true).store).isSome = true :=
  ⟨rfl, rfl, rfl, rfl⟩

/-- Witness for C7 at a concrete keyless request. -/
theorem C7_witness :
    (idempotencyMiddleware ⟨none, "POST", "/api/payment", Json.null⟩ none 0
        (.respond 201 Json.null) true).gate = .bypass
    ∧ (idempotencyMiddleware ⟨none, "POST", "/api/payment", Json.null⟩ none 0
        (.respond 201 Json.null) true).store = none
    ∧ (idempotencyMiddleware ⟨none, "POST", "/api/payment", Json.null⟩ none 0
        (.respond 201 Json.null) true).acquired = 0
    ∧ (idempotencyMiddleware ⟨none, "POST", "/api/payment", Json.null⟩ none 0
        (.respond 201 Json.null) true).handlerRan = true := by
  have h := C7_bypass_amended ⟨none, "POST", "/api/payment", Json.null⟩ none 0
    (.respond 201 Json.null) true
  have hby := h.1.mp (Or.inl rfl)
  exact ⟨hby, (h.2 hby).1, (h.2 hby).2.1, (h.2 hby).2.2⟩

lemma applyOp_recInv (st : KeyStore) (op : StoreOp)
    (h : ∀ r0, st = some r0 → recInv r0) (r : IdempotencyRecord)
    (hr : applyOp st op = some r) : recInv r := by
  cases op with
  | claim now m p b =>
    cases st with
    | none =>
      injection hr with hr
      subst hr
      exact ⟨by simp, by simp⟩
    | some r0 =>
      injection hr with hr
      exact hr ▸ h r0 rfl
  | complete now s b =>
    cases st with
    | none => exact absurd hr (by simp [applyOp, updateQuery])
    | some r0 =>
      injection hr with hr
      subst hr
      exact ⟨by simp, by simp⟩
  | sweep now =>
    cases st with
    | none => exact absurd hr (by simp [applyOp, cleanupExpiredKeys])
    | some r0 =>
      by_cases hx : r0.expires_at < now
      · exact absurd hr (by simp [applyOp, cleanupExpiredKeys, hx])
      · have hkeep : applyOp (some r0) (.sweep now) = some r0 := by
          simp [applyOp, cleanupExpiredKeys, hx]
        rw [hkeep] at hr
        injection hr with hr
        exact hr ▸ h r0 rfl

lemma recInv_of_foldl (ops : List StoreOp) (st : KeyStore)
    (h : ∀ r, st = some r → recInv r) :
    ∀ r, List.foldl applyOp st ops = some r → recInv r := by
  induction ops generalizing st with
  | nil => exact h
  | cons op ops ih => exact ih (applyOp st op) (applyOp_recInv st op h)

/-- C8: every record reachable from the empty store by the three store
operations satisfies the response-presence invariant; the claim insert
creates the row `processing` with both response columns absent, and the
completion update sets both columns and `completed` in one mutation. -/
theorem C8_response_presence :
    (∀ ops : List StoreOp, ∀ r, List.foldl applyOp none ops = some r → recInv r)
    ∧ (∀ now : Int, ∀ m p : String, ∀ b : Json, ∀ r,
        (insertQuery none now m p b).1 = some r →
          r.processing_status = .processing ∧ r.response_status = none
          ∧ r.response_body = none)
    ∧ (∀ st : KeyStore, ∀ now s : Int, ∀ b : Json, ∀ r,
        updateQuery st now s b = some r →
          r.response_status = some s ∧ r.response_body = some b
          ∧ r.processing_status = .completed) := by
  refine ⟨fun ops r hr => recInv_of_foldl ops none (fun r h => nomatch h) r hr,
    ?_, ?_⟩
  · intro now m p b r hr
    injection hr with hr
    subst hr
    exact ⟨rfl, rfl, rfl⟩
  · intro st now s b r hr
    cases st with
    | none => exact absurd hr (by simp [updateQuery])
    | some r0 =>
      injection hr with hr
      subst hr
      exact ⟨rfl, rfl, rfl⟩

/-- Witness for C8: the record reached by a concrete claim followed by a
concrete completion satisfies the invariant. -/
theorem C8_witness :
    recInv ((List.foldl applyOp none
      [StoreOp.claim 0 "POST" "/api/payment" Json.null,
       StoreOp.complete 1 201 (Json.obj [("id", Json.num 1)])]).getD default) :=
  C8_response_presence.1
    [StoreOp.claim 0 "POST" "/api/payment" Json.null,
     StoreOp.complete 1 201 (Json.obj [("id", Json.num 1)])] _ rfl

/-- C9: a successful claim stamps `created_at = now` and
`expires_at = created_at + 24h`; the record is visible to the check SELECT
exactly on the half-open 24-hour window, is not removed by a sweep up to
the window's end, and is removed by any sweep strictly after it. -/
theorem C9_ttl_arithmetic (now t : Int) (m p : String) (b : Json) :
    (insertQuery none now m p b).2 = true
    ∧ ((insertQuery none now m p b).1.map (fun r => r.created_at)) = some now
    ∧ ((insertQuery none now m p b).1.map (fun r => r.expires_at))
        = some (now + ttl24h)
    ∧ ((checkQuery (insertQuery none now m p b).1 t).isSome = true
        ↔ t < now + ttl24h)
    ∧ (now + ttl24h < t →
        cleanupExpiredKeys (insertQuery none now m p b).1 t = none)
    ∧ (t ≤ now + ttl24h →
        cleanupExpiredKeys (insertQuery none now m p b).1 t
          = (insertQuery none now m p b).1) := by
  refine ⟨rfl, rfl, rfl, ?_, fun ht => ?_, fun ht => ?_⟩
  · by_cases h : t < now + ttl24h <;> simp [insertQuery, checkQuery, h]
  · simp [insertQuery, cleanupExpiredKeys, ht]
  · have hn : ¬ (now + ttl24h < t) := by omega
    simp [insertQuery, cleanupExpiredKeys, hn]

/-- Witness for C9: the concrete 24-hour window of a claim at time 0. -/
theorem C9_witness :
    ((0 : Int) + ttl24h < 90000)
    ∧ ((86399 : Int) < 0 + ttl24h)
    ∧ (checkQuery (insertQuery none 0 "POST" "/api/payment" Json.null).1
        86399).isSome = true
    ∧ cleanupExpiredKeys (insertQuery none 0 "POST" "/api/payment" Json.null).1
        90000 = none :=
  ⟨by decide, by decide,
    (C9_ttl_arithmetic 0 86399 "POST" "/api/payment" Json.null).2.2.2.1.mpr
      (by decide),
    (C9_ttl_arithmetic 0 90000 "POST" "/api/payment" Json.null).2.2.2.2.1
      (by decide)⟩

/-- C10: a completed, unexpired record whose cached body is SQL NULL or
the JSON value null is not replayed: the check falls through, the insert
conflicts with the present row, the request is answered 409, the handler
never runs, and the anomalous record is left unchanged. -/
theorem C10_defensive_fallback (ctx : ReqCtx) (r : IdempotencyRecord)
    (now : Int) (act : HandlerAct) (cwOk : Bool)
    (hk : keyFalsy ctx.key = false) (hm : ctx.method ≠ "GET")
    (hexp : now < r.expires_at) (hc : r.processing_status = .completed)
    (hb : r.response_body = none ∨ r.response_body = some .null) :
    (idempotencyMiddleware ctx (some r) now act cwOk).gate = .conflict
    ∧ (idempotencyMiddleware ctx (some r) now act cwOk).response
        = some (some 409, conflictBody)
    ∧ (idempotencyMiddleware ctx (some r) now act cwOk).handlerRan = false
    ∧ (idempotencyMiddleware ctx (some r) now act cwOk).store = some r := by
  have hg := guard_false hk hm
  rcases hb with hb | hb <;>
    simp [idempotencyMiddleware, hg, checkQuery, cachedDecision, hexp, hc, hb,
      insertQuery, truthy]

/-- Witness for C10 at a concrete anomalous record. -/
theorem C10_witness :
    keyFalsy (some "K10") = false ∧ ("POST" : String) ≠ "GET"
    ∧ ((5 : Int) < 86400)
    ∧ (idempotencyMiddleware ⟨some "K10", "POST", "/api/payment", Json.null⟩
        (some { request_method := "POST", request_path := "/api/payment",
                request_body := Json.null, processing_status := .completed,
                response_status := some 201, response_body := none,
                created_at := 0, updated_at := 0, expires_at := 86400 })
        5 (.respond 201 Json.null) true).gate = .conflict :=
  ⟨rfl, by decide, by decide,
    (C10_defensive_fallback ⟨some "K10", "POST", "/api/payment", Json.null⟩
      { request_method := "POST", request_path := "/api/payment",
        request_body := Json.null, processing_status := .completed,
        response_status := some 201, response_body := none,
        created_at := 0, updated_at := 0, expires_at := 86400 }
      5 (.respond 201 Json.null) true rfl (by decide) (by decide) rfl
      (Or.inl rfl)).1⟩

end Idem
